import Mathlib

/-!
Verification development for the KAI personal knowledge-management pipeline.

The Python source is shallowly embedded: the tag hierarchy is an inductive
tree of nested mappings and leaf-tag lists, agents become pure functions
over explicit oracles for the external collaborators (the language model,
the JSON decoder, the graph store, the vector store), exceptions become
an Except result, and audit logging becomes an explicit list of log
entries returned alongside the result.
-/

set_option autoImplicit false

/-- TagVal models one value of the YAML tag hierarchy (tags.yaml): a value is
either a nested mapping from category name to sub-hierarchy (a Python dict,
kept here as an association list in insertion order) or a list of leaf tag
strings (a Python list). -/
inductive TagVal where
  | node : List (String × TagVal) → TagVal
  | leaf : List String → TagVal

/-- assocLookup models Python dict key lookup on the insertion-ordered
association list representing a dict. -/
def assocLookup (m : List (String × TagVal)) (k : String) : Option TagVal :=
  match m with
  | [] => none
  | (k₁, v) :: rest => if k₁ = k then some v else assocLookup rest k

/-- assocUpd models Python dict assignment: replace the value at an existing
key in place, or append a fresh key at the end (dict insertion order). -/
def assocUpd (m : List (String × TagVal)) (k : String) (v : TagVal) : List (String × TagVal) :=
  match m with
  | [] => [(k, v)]
  | (k₁, v₁) :: rest => if k₁ = k then (k, v) :: rest else (k₁, v₁) :: assocUpd rest k v

/-- strMem models the Python membership test of a string in a list of
strings. -/
def strMem (k : String) : List String → Bool
  | [] => false
  | x :: rest => if x = k then true else strMem k rest

/-- MergeResult is the outcome of one run of the tag-merge walk
(ExtractorAgent in extractor.py, method update tags if needed): either a
normal return carrying the path-changed flag and the hierarchy after the
in-place mutations, or a raised Python exception (AttributeError when the
code calls append on a dict, TypeError when it indexes a list with a
string key) carrying the hierarchy state after the mutations already
performed before the raise. -/
inductive MergeResult where
  | ok : Bool → TagVal → MergeResult
  | err : String → TagVal → MergeResult

/-- mergeWalk is the loop body of the tag-merge step in extractor.py
(method update tags if needed, lines 23 to 39): walk the tag path from the
root; at the final segment, append it to the current collection when
absent (Python append, which raises AttributeError when the current
collection is a dict); at an intermediate segment, create an empty dict
when the key is absent (raising the changed flag) and descend (both the
assignment and the descent raise TypeError when the current collection is
a list). -/
def mergeWalk : List String → TagVal → MergeResult
  | [], t => .ok false t
  | [k], .leaf l =>
      if strMem k l then .ok false (.leaf l) else .ok true (.leaf (l ++ [k]))
  | [k], .node m =>
      if (assocLookup m k).isSome then .ok false (.node m) else .err "AttributeError" (.node m)
  | _ :: _ :: _, .leaf l => .err "TypeError" (.leaf l)
  | k :: k₂ :: rest, .node m =>
      match assocLookup m k with
      | some child =>
          match mergeWalk (k₂ :: rest) child with
          | .ok b child₂ => .ok b (.node (assocUpd m k child₂))
          | .err msg child₂ => .err msg (.node (assocUpd m k child₂))
      | none =>
          match mergeWalk (k₂ :: rest) (.node []) with
          | .ok _ child₂ => .ok true (.node (assocUpd m k child₂))
          | .err msg child₂ => .err msg (.node (assocUpd m k child₂))

/-- update tags if needed, the return value of the Python method: the
mutated hierarchy when the walk changed something, Python None when it did
not, or the raised exception. -/
def update_tags_if_needed (tag_path : List String) (current_tags : TagVal) :
    Except String (Option TagVal) :=
  match mergeWalk tag_path current_tags with
  | .ok true t => .ok (some t)
  | .ok false _ => .ok none
  | .err msg _ => .error msg

/-- pathExists decides whether every segment of the tag path is already
present in the hierarchy as a traversable path: intermediate segments as
mapping keys, the final segment either as a member of its parent leaf list
or as a key of its parent mapping (the code treats a present mapping key
at the final position as already existing). -/
def pathExists : List String → TagVal → Bool
  | [], _ => true
  | [k], .leaf l => strMem k l
  | [k], .node m => (assocLookup m k).isSome
  | _ :: _ :: _, .leaf _ => false
  | k :: k₂ :: rest, .node m =>
      match assocLookup m k with
      | some child => pathExists (k₂ :: rest) child
      | none => false

/-- LogEntry models one row of the llm api logs table in log_db.py:
timestamp is dropped (wall-clock), the remaining columns are kept. -/
structure LogEntry where
  agent_name : String
  prompt : String
  response : String
  status : String
  action_type : String
deriving DecidableEq

/-- logApiCall models SQLiteLogger.log_api_call: an entry with the given
agent name, prompt, response and status, and the fixed action type. -/
def logApiCall (agent_name prompt response status : String) : LogEntry :=
  { agent_name := agent_name, prompt := prompt, response := response,
    status := status, action_type := "api_call" }

/-- logManualAction models SQLiteLogger.log_manual_action: the agent name
is the fixed string Manual Action, the details go into the prompt column,
the response is empty, and the status is hard-coded to success. -/
def logManualAction (action_name details : String) : LogEntry :=
  { agent_name := "Manual Action", prompt := details, response := "",
    status := "success", action_type := action_name }

/-- RunOutcome packages the effects of one agent run: the returned value or
raised exception, the audit log entries written, and the prompts sent to
the language model (so a claim that the model is never invoked can be
stated as an empty call list). -/
structure RunOutcome (α : Type) where
  result : Except String α
  logs : List LogEntry
  modelCalls : List String

/-- pyWhitespace is the character set removed by the Python strip method
with no argument. -/
def pyWhitespace : List Char := [' ', '\t', '\n', '\r', Char.ofNat 11, Char.ofNat 12]

/-- lstripChars models the Python lstrip method: drop leading characters
belonging to the given set. -/
def lstripChars (s : List Char) (cs : List Char) : List Char :=
  cs.dropWhile (fun c => s.contains c)

/-- rstripChars models the Python rstrip method: drop trailing characters
belonging to the given set. -/
def rstripChars (s : List Char) (cs : List Char) : List Char :=
  (cs.reverse.dropWhile (fun c => s.contains c)).reverse

/-- cleanResponse models the response cleaning shared by Extractor,
QueryAnalyzer and KnowledgeLinker: strip whitespace, then lstrip over the
character set of a backtick fence marker followed by the letters j s o n,
then rstrip backticks. -/
def cleanResponse (s : String) : String :=
  let cs := rstripChars pyWhitespace (lstripChars pyWhitespace s.toList)
  String.mk (rstripChars [Char.ofNat 96] (lstripChars [Char.ofNat 96, 'j', 's', 'o', 'n'] cs))

/-- ExtractOut is the structured record the Extractor parses out of the
model response: summary, node type and tag path. -/
structure ExtractOut where
  content_summary : String
  node_type : String
  tag_path : List String
deriving DecidableEq

/-- extractorRun models ExtractorAgent.run (extractor.py lines 41 to 82).
Oracles: promptOf for the prompt template applied to the user text and the
YAML dump of the hierarchy, gen for the language-model call, loads for the
JSON decoding of the cleaned response into the expected record. The model
call, the decoding and the tag-merge walk can each raise; any raise is
logged with status error and re-raised; on full success the structured
record is returned together with the updated hierarchy (or none when the
merge changed nothing), after a success log entry. -/
def extractorRun (promptOf : String → TagVal → String)
    (gen : String → Except String String)
    (loads : String → Except String ExtractOut)
    (user_text : String) (tags_config : TagVal) : RunOutcome (ExtractOut × Option TagVal) :=
  let prompt := promptOf user_text tags_config
  match gen prompt with
  | .error e => ⟨.error e, [logApiCall "Extractor" prompt e "error"], [prompt]⟩
  | .ok resp =>
    let cleaned := cleanResponse resp
    match loads cleaned with
    | .error e => ⟨.error e, [logApiCall "Extractor" prompt e "error"], [prompt]⟩
    | .ok sd =>
      let okEntry := logApiCall "Extractor" prompt cleaned "success"
      match mergeWalk sd.tag_path tags_config with
      | .ok changed newTags =>
          ⟨.ok (sd, if changed then some newTags else none), [okEntry], [prompt]⟩
      | .err msg _ =>
          ⟨.error msg, [okEntry, logApiCall "Extractor" prompt msg "error"], [prompt]⟩

/-- QueryOut is the structured record the QueryAnalyzer parses out of the
model response: the rewritten semantic query and the list of tags. -/
structure QueryOut where
  semantic_query : String
  graph_tags : List String
deriving DecidableEq

/-- queryAnalyzerRun models QueryAnalyzerAgent.run (query analyzer, lines
22 to 53): build the prompt, call the model, clean and decode the
response; a model failure or a decode failure is logged with status error
and re-raised, success is logged and the record returned. -/
def queryAnalyzerRun (promptOf : String → String)
    (gen : String → Except String String)
    (loads : String → Except String QueryOut)
    (user_question : String) : RunOutcome QueryOut :=
  let prompt := promptOf user_question
  match gen prompt with
  | .error e => ⟨.error e, [logApiCall "QueryAnalyzer" prompt e "error"], [prompt]⟩
  | .ok resp =>
    let cleaned := cleanResponse resp
    match loads cleaned with
    | .error e => ⟨.error e, [logApiCall "QueryAnalyzer" prompt e "error"], [prompt]⟩
    | .ok q => ⟨.ok q, [logApiCall "QueryAnalyzer" prompt cleaned "success"], [prompt]⟩

/-- VecMeta is one metadata record returned by the vector store query in
vector db: the node id of a stored embedding. -/
structure VecMeta where
  node_id : String
deriving DecidableEq

/-- RelSpec is one relationship record proposed by the KnowledgeLinker:
target node id, relation type and a one-sentence description. -/
structure RelSpec where
  to_node_id : String
  type : String
  description : String
deriving DecidableEq

/-- linkerRun models KnowledgeLinkerAgent.run (linker.py lines 23 to 68):
query the vector store for up to five candidates; return the empty list at
once when there are none, never touching the model; otherwise call the
model and decode the cleaned response. Both a model failure and a decode
failure are caught by the same handler: logged with status error and
converted into an empty list rather than re-raised. -/
def linkerRun (promptOf : String → String → List VecMeta → String)
    (gen : String → Except String String)
    (loads : String → Except String (List RelSpec))
    (query_embeddings : String → Nat → List VecMeta)
    (new_node_id new_node_summary : String) : RunOutcome (List RelSpec) :=
  let candidates := query_embeddings new_node_summary 5
  if candidates.isEmpty then ⟨.ok [], [], []⟩
  else
    let prompt := promptOf new_node_id new_node_summary candidates
    match gen prompt with
    | .error e => ⟨.ok [], [logApiCall "KnowledgeLinker" prompt e "error"], [prompt]⟩
    | .ok resp =>
      let cleaned := cleanResponse resp
      match loads cleaned with
      | .error e => ⟨.ok [], [logApiCall "KnowledgeLinker" prompt e "error"], [prompt]⟩
      | .ok rels => ⟨.ok rels, [logApiCall "KnowledgeLinker" prompt cleaned "success"], [prompt]⟩

/-- NodeRec models a KnowledgeNode property record as returned by the graph
store; the summary and raw content are optional because the Python code
reads them with a get that can yield None. -/
structure NodeRec where
  node_id : String
  content_summary : Option String
  content_raw : Option String
deriving DecidableEq

/-- insertNew models adding one element to the Python id set, the set being
kept as a duplicate-free list. -/
def insertNew (l : List String) (x : String) : List String :=
  if x ∈ l then l else l ++ [x]

/-- addAll models adding every element of a list to the id set in order. -/
def addAll (l : List String) (xs : List String) : List String :=
  xs.foldl insertNew l

/-- addTagIds models the tag-search loop of HybridRetrieverAgent.run: for
each tag, fetch the nodes carrying that tag and add their ids to the set. -/
def addTagIds (search_nodes_by_tag : String → List NodeRec)
    (l : List String) (tags : List String) : List String :=
  tags.foldl (fun acc tag => addAll acc ((search_nodes_by_tag tag).map NodeRec.node_id)) l

/-- retrievedIds is the id set built by HybridRetrieverAgent.run
(retriever.py lines 21 to 34): the ids of the top ten vector matches when
the semantic query is non-empty, plus the ids of every node matching any
of the tags. -/
def retrievedIds (query_embeddings : String → Nat → List VecMeta)
    (search_nodes_by_tag : String → List NodeRec)
    (semantic_query : String) (graph_tags : List String) : List String :=
  let ids := if semantic_query = "" then []
    else addAll [] ((query_embeddings semantic_query 10).map VecMeta.node_id)
  if graph_tags.isEmpty then ids else addTagIds search_nodes_by_tag ids graph_tags

/-- hybridRun models HybridRetrieverAgent.run (retriever.py lines 12 to
43): build the id set, return the empty list at once when it is empty,
otherwise fetch the full records for all ids in one batch call. -/
def hybridRun (query_embeddings : String → Nat → List VecMeta)
    (search_nodes_by_tag : String → List NodeRec)
    (get_nodes_by_ids : List String → List NodeRec)
    (semantic_query : String) (graph_tags : List String) : List NodeRec :=
  let ids := retrievedIds query_embeddings search_nodes_by_tag semantic_query graph_tags
  if ids.isEmpty then [] else get_nodes_by_ids ids

/-- CtxItem is one entry of the context array the Synthesizer builds: a
node id together with the chosen content. -/
structure CtxItem where
  node_id : String
  content : Option String
deriving DecidableEq

/-- pyOrOpt models the Python expression a or b over optional strings:
the left operand is kept when it is truthy (present and non-empty),
otherwise the right operand is the value. -/
def pyOrOpt (a b : Option String) : Option String :=
  match a with
  | some s => if s = "" then b else some s
  | none => b

/-- buildContext models the context loop of SynthesizerAgent.run: for each
node, the summary if truthy else the raw content. -/
def buildContext (context_nodes : List NodeRec) : List CtxItem :=
  context_nodes.map fun n => ⟨n.node_id, pyOrOpt n.content_summary n.content_raw⟩

/-- synthesizerRun models SynthesizerAgent.run (synthesizer.py lines 22 to
64): build the context, call the model; the raw response text is the
answer (no decoding); a model failure is logged with status error and
re-raised. -/
def synthesizerRun (promptOf : String → List CtxItem → String)
    (gen : String → Except String String)
    (user_question : String) (context_nodes : List NodeRec) : RunOutcome String :=
  let prompt := promptOf user_question (buildContext context_nodes)
  match gen prompt with
  | .error e => ⟨.error e, [logApiCall "Synthesizer" prompt e "error"], [prompt]⟩
  | .ok answer => ⟨.ok answer, [logApiCall "Synthesizer" prompt answer "success"], [prompt]⟩

/-- StoreOp is one persistence call the GraphWriter performs against the
stores; deleteNode is part of the store interface (graph db) and is listed
so that the absence of any rollback can be stated. -/
inductive StoreOp where
  | createNode : String → String → String → String → List String → StoreOp
  | addEmbedding : String → String → StoreOp
  | createRel : String → String → String → String → StoreOp
  | deleteNode : String → StoreOp
deriving DecidableEq

/-- writeRels models the relationship loop of GraphWriterAgent.run: create
each relationship in order until one raises; the result is the list of
store calls that completed and the first raised exception, if any. -/
def writeRels (create_relationship : RelSpec → Except String Unit)
    (node_id : String) : List RelSpec → List StoreOp × Option String
  | [] => ([], none)
  | r :: rest =>
    match create_relationship r with
    | .error e => ([], some e)
    | .ok _ =>
      let p := writeRels create_relationship node_id rest
      (StoreOp.createRel node_id r.to_node_id r.type r.description :: p.1, p.2)

/-- writeFailMsg is the detail string GraphWriterAgent.run logs on any
failure. -/
def writeFailMsg (node_id e : String) : String :=
  "Failed to write node " ++ node_id ++ ". Error: " ++ e

/-- graphWriterRun models GraphWriterAgent.run (writer.py lines 12 to 54):
create the node, store the embedding, create each relationship, in order;
oracles give the outcome of each store call. Any raise is caught by the
single handler, which writes one manual-action audit entry and returns
normally, so the function never re-raises: the result is always ok,
carrying the store calls that completed and the audit entries written. -/
def graphWriterRun (create_knowledge_node add_embedding : Except String Unit)
    (create_relationship : RelSpec → Except String Unit)
    (node_id : String) (extractor_output : ExtractOut)
    (linker_output : List RelSpec) (raw_text : String) :
    Except String (List StoreOp × List LogEntry) :=
  match create_knowledge_node with
  | .error e => .ok ([], [logManualAction "write_failure" (writeFailMsg node_id e)])
  | .ok _ =>
    let nodeOp := StoreOp.createNode node_id raw_text extractor_output.content_summary
      extractor_output.node_type extractor_output.tag_path
    match add_embedding with
    | .error e => .ok ([nodeOp], [logManualAction "write_failure" (writeFailMsg node_id e)])
    | .ok _ =>
      let embOp := StoreOp.addEmbedding node_id extractor_output.content_summary
      let p := writeRels create_relationship node_id linker_output
      match p.2 with
      | some e => .ok (nodeOp :: embOp :: p.1, [logManualAction "write_failure" (writeFailMsg node_id e)])
      | none => .ok (nodeOp :: embOp :: p.1, [])

/-- noInfoMessage is the fixed response of the query page when retrieval
finds nothing. -/
def noInfoMessage : String :=
  "I couldn\x27t find any relevant information in your knowledge graph to answer that question."

/-- queryErrorMessage is the inline error response of the query page when
any pipeline step raises. -/
def queryErrorMessage (e : String) : String :=
  "Sorry, an error occurred while processing your request: " ++ e

/-- PageOutcome is the observable outcome of one query-page chat turn: the
response shown and appended to the chat history, whether it went through
the error branch, the audit entries written, and the prompts the
Synthesizer sent to the model (empty when it was never invoked). -/
structure PageOutcome where
  response : String
  isError : Bool
  logs : List LogEntry
  synthCalls : List String
deriving DecidableEq

/-- queryGraphPage models the Query Graph page handler (app.py lines 221
to 245): run the QueryAnalyzer; on success run the HybridRetriever with
the analyzed semantic query and tags; when it returns no nodes the fixed
no-information message is the response and the Synthesizer is never
invoked; otherwise the Synthesizer produces the response; any raise is
caught and turned into the inline error response. -/
def queryGraphPage (qaPromptOf : String → String)
    (genQA : String → Except String String)
    (loadsQA : String → Except String QueryOut)
    (query_embeddings : String → Nat → List VecMeta)
    (search_nodes_by_tag : String → List NodeRec)
    (get_nodes_by_ids : List String → List NodeRec)
    (synthPromptOf : String → List CtxItem → String)
    (genS : String → Except String String)
    (prompt : String) : PageOutcome :=
  let a := queryAnalyzerRun qaPromptOf genQA loadsQA prompt
  match a.result with
  | .error e => ⟨queryErrorMessage e, true, a.logs, []⟩
  | .ok q =>
    let retrieved := hybridRun query_embeddings search_nodes_by_tag get_nodes_by_ids
      q.semantic_query q.graph_tags
    if retrieved.isEmpty then ⟨noInfoMessage, false, a.logs, []⟩
    else
      let s := synthesizerRun synthPromptOf genS prompt retrieved
      match s.result with
      | .ok ans => ⟨ans, false, a.logs ++ s.logs, s.modelCalls⟩
      | .error e => ⟨queryErrorMessage e, true, a.logs ++ s.logs, s.modelCalls⟩

/-- sampleHier is the scenario hierarchy of the spec: Biology mapping to
the leaf list containing Ecology. -/
def sampleHier : TagVal := .node [("Biology", .leaf ["Ecology"])]

/-- cGenFail is a concrete model oracle whose call always raises. -/
def cGenFail : String → Except String String := fun _ => .error "ServiceUnavailable"

/-- cGenOk is a concrete model oracle that always answers with a fixed
text. -/
def cGenOk : String → Except String String := fun _ => .ok "resp"

/-- cVqTwo is a concrete vector-store oracle returning two matches. -/
def cVqTwo : String → Nat → List VecMeta := fun _ _ => [⟨"n1"⟩, ⟨"n2"⟩]

/-- cVqOne is a concrete vector-store oracle returning one candidate. -/
def cVqOne : String → Nat → List VecMeta := fun _ _ => [⟨"cand1"⟩]

/-- cVqNone is a concrete vector-store oracle returning no matches. -/
def cVqNone : String → Nat → List VecMeta := fun _ _ => []

/-- cSbt is a concrete tag-search oracle: every tag matches the nodes n2
and n3, with n2 overlapping the vector matches of cVqTwo. -/
def cSbt : String → List NodeRec := fun _ => [⟨"n2", some "s2", some "r2"⟩, ⟨"n3", none, some "r3"⟩]

/-- cGbi is a concrete batch-fetch oracle returning one bare record per
requested id. -/
def cGbi : List String → List NodeRec := fun l => l.map fun i => ⟨i, none, none⟩

/-- cEPromptOf is a concrete extractor prompt template. -/
def cEPromptOf : String → TagVal → String := fun t _ => "extract: " ++ t

/-- cQaPromptOf is a concrete query-analyzer prompt template. -/
def cQaPromptOf : String → String := fun q => "analyze: " ++ q

/-- cLPromptOf is a concrete linker prompt template. -/
def cLPromptOf : String → String → List VecMeta → String :=
  fun nid nsum _ => "link: " ++ nid ++ " " ++ nsum

/-- cSynthPromptOf is a concrete synthesizer prompt template. -/
def cSynthPromptOf : String → List CtxItem → String := fun q _ => "synth: " ++ q

/-- cELoads is a concrete decode oracle for the extractor returning the
scenario record of the spec. -/
def cELoads : String → Except String ExtractOut :=
  fun _ => .ok ⟨"sum", "Concept", ["Biology", "Photosynthesis"]⟩

/-- cLLoadsFail is a concrete decode oracle for the linker that always
fails, standing for a malformed model response. -/
def cLLoadsFail : String → Except String (List RelSpec) := fun _ => .error "JSONDecodeError"

/-- cQLoadsEmpty is a concrete decode oracle for the query analyzer
returning an empty semantic query and no tags. -/
def cQLoadsEmpty : String → Except String QueryOut := fun _ => .ok ⟨"", []⟩

theorem strMem_append_self (k : String) (l : List String) : strMem k (l ++ [k]) = true := by
  induction l with
  | nil => simp [strMem]
  | cons x rest ih => by_cases h : x = k <;> simp [strMem, h, ih]

theorem assocLookup_upd_self (m : List (String × TagVal)) (k : String) (v : TagVal) :
    assocLookup (assocUpd m k v) k = some v := by
  induction m with
  | nil => simp [assocUpd, assocLookup]
  | cons p rest ih =>
    obtain ⟨k₁, v₁⟩ := p
    by_cases h : k₁ = k <;> simp [assocUpd, assocLookup, h, ih]

theorem assocUpd_upd (m : List (String × TagVal)) (k : String) (v v₂ : TagVal) :
    assocUpd (assocUpd m k v) k v₂ = assocUpd m k v₂ := by
  induction m with
  | nil => simp [assocUpd]
  | cons p rest ih =>
    obtain ⟨k₁, v₁⟩ := p
    by_cases h : k₁ = k <;> simp [assocUpd, h, ih]

theorem assocUpd_of_lookup (m : List (String × TagVal)) (k : String) (v : TagVal)
    (h : assocLookup m k = some v) : assocUpd m k v = m := by
  induction m with
  | nil => simp [assocLookup] at h
  | cons p rest ih =>
    obtain ⟨k₁, v₁⟩ := p
    by_cases hk : k₁ = k
    · subst hk
      simp [assocLookup] at h
      simp [assocUpd, h]
    · simp [assocLookup, hk] at h
      simp [assocUpd, hk, ih h]

theorem mergeWalk_of_pathExists : ∀ (path : List String) (t : TagVal),
    pathExists path t = true → mergeWalk path t = .ok false t := by
  intro path
  induction path with
  | nil => intro t _; rfl
  | cons k rest ih =>
    intro t h
    cases rest with
    | nil =>
      cases t with
      | leaf l =>
        simp only [pathExists] at h
        simp [mergeWalk, h]
      | node m =>
        simp only [pathExists] at h
        simp [mergeWalk, h]
    | cons k₂ rest₂ =>
      cases t with
      | leaf l => simp [pathExists] at h
      | node m =>
        simp only [pathExists] at h
        cases hlook : assocLookup m k with
        | none => rw [hlook] at h; simp at h
        | some child =>
          rw [hlook] at h
          simp only [] at h
          have hrec := ih child h
          simp [mergeWalk, hlook, hrec, assocUpd_of_lookup m k child hlook]

theorem mergeWalk_rerun : ∀ (path : List String) (t : TagVal) (b : Bool) (t₂ : TagVal),
    mergeWalk path t = .ok b t₂ → mergeWalk path t₂ = .ok false t₂ := by
  intro path
  induction path with
  | nil =>
    intro t b t₂ h
    simp only [mergeWalk] at h
    injection h with h₁ h₂
    subst h₂
    rfl
  | cons k rest ih =>
    intro t b t₂ h
    cases rest with
    | nil =>
      cases t with
      | leaf l =>
        simp only [mergeWalk] at h
        by_cases hm : strMem k l = true
        · rw [if_pos hm] at h
          injection h with h₁ h₂
          subst h₂
          simp [mergeWalk, hm]
        · rw [if_neg hm] at h
          injection h with h₁ h₂
          subst h₂
          simp [mergeWalk, strMem_append_self]
      | node m =>
        simp only [mergeWalk] at h
        by_cases hm : (assocLookup m k).isSome = true
        · rw [if_pos hm] at h
          injection h with h₁ h₂
          subst h₂
          simp [mergeWalk, hm]
        · rw [if_neg hm] at h
          exact absurd h (by simp)
    | cons k₂ rest₂ =>
      cases t with
      | leaf l =>
        simp only [mergeWalk] at h
        exact absurd h (by simp)
      | node m =>
        simp only [mergeWalk] at h
        cases hlook : assocLookup m k with
        | some child =>
          rw [hlook] at h
          simp only [] at h
          cases hrec : mergeWalk (k₂ :: rest₂) child with
          | ok b₀ child₂ =>
            rw [hrec] at h
            simp only [] at h
            injection h with h₁ h₂
            subst h₂
            have hstep := ih child b₀ child₂ hrec
            simp [mergeWalk, assocLookup_upd_self, hstep, assocUpd_upd]
          | err msg child₂ =>
            rw [hrec] at h
            simp at h
        | none =>
          rw [hlook] at h
          simp only [] at h
          cases hrec : mergeWalk (k₂ :: rest₂) (.node []) with
          | ok b₀ child₂ =>
            rw [hrec] at h
            simp only [] at h
            injection h with h₁ h₂
            subst h₂
            have hstep := ih (.node []) b₀ child₂ hrec
            simp [mergeWalk, assocLookup_upd_self, hstep, assocUpd_upd]
          | err msg child₂ =>
            rw [hrec] at h
            simp at h

/-- Claim C2: the tag-merge step is idempotent. For every hierarchy and
every tag path already fully present, the merge signals unchanged (the
method returns None) and the hierarchy snapshot is identical, so nothing
is duplicated; and after any successful run of the merge, a second run
with the same tag path signals no change and leaves the hierarchy
identical. -/
theorem tag_merge_idempotent (t : TagVal) (path : List String) :
    (pathExists path t = true →
      mergeWalk path t = .ok false t ∧ update_tags_if_needed path t = .ok none) ∧
    (∀ b t₂, mergeWalk path t = .ok b t₂ →
      mergeWalk path t₂ = .ok false t₂ ∧ update_tags_if_needed path t₂ = .ok none) := by
  constructor
  · intro h
    have h₁ := mergeWalk_of_pathExists path t h
    exact ⟨h₁, by simp [update_tags_if_needed, h₁]⟩
  · intro b t₂ h
    have h₁ := mergeWalk_rerun path t b t₂ h
    exact ⟨h₁, by simp [update_tags_if_needed, h₁]⟩

/-- Witness for claim C2 at concrete inputs: the scenario hierarchy with
an already present path signals unchanged, and a second run after a
changing first run (adding the leaf Photosynthesis under Biology) signals
unchanged with an identical snapshot. -/
theorem tag_merge_idempotent_witness :
    (mergeWalk ["Biology", "Ecology"] sampleHier = .ok false sampleHier ∧
      update_tags_if_needed ["Biology", "Ecology"] sampleHier = .ok none) ∧
    (mergeWalk ["Biology", "Photosynthesis"]
        (TagVal.node [("Biology", .leaf ["Ecology", "Photosynthesis"])]) =
      .ok false (TagVal.node [("Biology", .leaf ["Ecology", "Photosynthesis"])]) ∧
      update_tags_if_needed ["Biology", "Photosynthesis"]
        (TagVal.node [("Biology", .leaf ["Ecology", "Photosynthesis"])]) = .ok none) :=
  ⟨(tag_merge_idempotent sampleHier ["Biology", "Ecology"]).1 rfl,
   (tag_merge_idempotent sampleHier ["Biology", "Photosynthesis"]).2 true
     (TagVal.node [("Biology", .leaf ["Ecology", "Photosynthesis"])]) rfl⟩

/-- Claim C3 (code bug evaluation): on a tag path whose intermediate
segment is novel, the walk creates the segment as an empty mapping and
then raises AttributeError at the final segment (append called on a
dict), instead of appending the leaf and returning the mutated hierarchy
with a changed signal as the specification describes. -/
theorem tag_merge_novel_intermediate_raises :
    mergeWalk ["NewCategory", "NewLeaf"] sampleHier =
      .err "AttributeError" (.node [("Biology", .leaf ["Ecology"]), ("NewCategory", .node [])]) ∧
    update_tags_if_needed ["NewCategory", "NewLeaf"] sampleHier = .error "AttributeError" :=
  ⟨rfl, rfl⟩

theorem mem_insertNew (l : List String) (x y : String) :
    y ∈ insertNew l x ↔ y ∈ l ∨ y = x := by
  unfold insertNew
  by_cases h : x ∈ l
  · rw [if_pos h]
    constructor
    · exact Or.inl
    · rintro (hy | rfl)
      · exact hy
      · exact h
  · rw [if_neg h]
    simp

theorem nodup_insertNew (l : List String) (x : String) (h : l.Nodup) :
    (insertNew l x).Nodup := by
  unfold insertNew
  by_cases hx : x ∈ l
  · rwa [if_pos hx]
  · rw [if_neg hx, ← List.concat_eq_append]
    exact List.Nodup.concat hx h

theorem mem_addAll : ∀ (xs l : List String) (y : String),
    y ∈ addAll l xs ↔ y ∈ l ∨ y ∈ xs := by
  intro xs
  induction xs with
  | nil => intro l y; simp [addAll]
  | cons x rest ih =>
    intro l y
    have hstep : addAll l (x :: rest) = addAll (insertNew l x) rest := rfl
    rw [hstep, ih, mem_insertNew]
    simp [List.mem_cons]
    tauto

theorem nodup_addAll : ∀ (xs l : List String), l.Nodup → (addAll l xs).Nodup := by
  intro xs
  induction xs with
  | nil => intro l h; simpa [addAll] using h
  | cons x rest ih =>
    intro l h
    have hstep : addAll l (x :: rest) = addAll (insertNew l x) rest := rfl
    rw [hstep]
    exact ih _ (nodup_insertNew l x h)

theorem mem_addTagIds (sbt : String → List NodeRec) :
    ∀ (tags l : List String) (y : String),
    y ∈ addTagIds sbt l tags ↔ y ∈ l ∨ ∃ t ∈ tags, y ∈ (sbt t).map NodeRec.node_id := by
  intro tags
  induction tags with
  | nil => intro l y; simp [addTagIds]
  | cons t rest ih =>
    intro l y
    have hstep : addTagIds sbt l (t :: rest) =
        addTagIds sbt (addAll l ((sbt t).map NodeRec.node_id)) rest := rfl
    rw [hstep, ih, mem_addAll]
    constructor
    · rintro ((hy | hy) | ⟨t₂, ht₂, hy⟩)
      · exact Or.inl hy
      · exact Or.inr ⟨t, List.mem_cons_self t rest, hy⟩
      · exact Or.inr ⟨t₂, List.mem_cons_of_mem t ht₂, hy⟩
    · rintro (hy | ⟨t₂, ht₂, hy⟩)
      · exact Or.inl (Or.inl hy)
      · rcases List.mem_cons.mp ht₂ with rfl | ht₂
        · exact Or.inl (Or.inr hy)
        · exact Or.inr ⟨t₂, ht₂, hy⟩

theorem nodup_addTagIds (sbt : String → List NodeRec) :
    ∀ (tags l : List String), l.Nodup → (addTagIds sbt l tags).Nodup := by
  intro tags
  induction tags with
  | nil => intro l h; simpa [addTagIds] using h
  | cons t rest ih =>
    intro l h
    have hstep : addTagIds sbt l (t :: rest) =
        addTagIds sbt (addAll l ((sbt t).map NodeRec.node_id)) rest := rfl
    rw [hstep]
    exact ih _ (nodup_addAll _ _ h)

/-- Claim C1: HybridRetriever.run collects into one set the ids of the top
ten vector matches (only when the semantic query is non-empty) plus, for
each tag, the ids of every node carrying that tag; it returns the empty
list at once when the set is empty, otherwise the records from one batch
call on the id set; the id set contains each id exactly once, and under
the store contract that a batch fetch of distinct ids yields records with
distinct ids, the output holds each node id at most once even when an id
comes from both steps. -/
theorem hybrid_retriever_dedup (vq : String → Nat → List VecMeta)
    (sbt : String → List NodeRec) (gbi : List String → List NodeRec)
    (q : String) (tags : List String) :
    (∀ i, i ∈ retrievedIds vq sbt q tags ↔
       ((q ≠ "" ∧ i ∈ (vq q 10).map VecMeta.node_id) ∨
        ∃ t ∈ tags, i ∈ (sbt t).map NodeRec.node_id)) ∧
    (retrievedIds vq sbt q tags).Nodup ∧
    (retrievedIds vq sbt q tags = [] → hybridRun vq sbt gbi q tags = []) ∧
    (retrievedIds vq sbt q tags ≠ [] →
       hybridRun vq sbt gbi q tags = gbi (retrievedIds vq sbt q tags)) ∧
    ((∀ l, l.Nodup → ((gbi l).map NodeRec.node_id).Nodup) →
       ((hybridRun vq sbt gbi q tags).map NodeRec.node_id).Nodup) := by
  have hmem : ∀ i, i ∈ retrievedIds vq sbt q tags ↔
      ((q ≠ "" ∧ i ∈ (vq q 10).map VecMeta.node_id) ∨
       ∃ t ∈ tags, i ∈ (sbt t).map NodeRec.node_id) := by
    intro i
    unfold retrievedIds
    cases tags with
    | nil =>
      by_cases hq : q = "" <;> simp [hq, mem_addAll]
    | cons t ts =>
      by_cases hq : q = "" <;>
        simp [hq, mem_addTagIds, mem_addAll]
  have hnodup : (retrievedIds vq sbt q tags).Nodup := by
    unfold retrievedIds
    cases tags with
    | nil =>
      by_cases hq : q = "" <;> simp [hq]
      exact nodup_addAll _ _ List.nodup_nil
    | cons t ts =>
      by_cases hq : q = "" <;> simp [hq]
      · exact nodup_addTagIds sbt _ _ List.nodup_nil
      · exact nodup_addTagIds sbt _ _ (nodup_addAll _ _ List.nodup_nil)
  have hempty : retrievedIds vq sbt q tags = [] → hybridRun vq sbt gbi q tags = [] := by
    intro h
    simp [hybridRun, h]
  have hnonempty : retrievedIds vq sbt q tags ≠ [] →
      hybridRun vq sbt gbi q tags = gbi (retrievedIds vq sbt q tags) := by
    intro h
    have hfalse : (retrievedIds vq sbt q tags).isEmpty = false := by
      cases hh : retrievedIds vq sbt q tags with
      | nil => exact absurd hh h
      | cons a l => rfl
    simp [hybridRun, hfalse]
  refine ⟨hmem, hnodup, hempty, hnonempty, ?_⟩
  intro hstore
  by_cases hids : retrievedIds vq sbt q tags = []
  · rw [hempty hids]; simp
  · rw [hnonempty hids]
    exact hstore _ hnodup

/-- Witness for claim C1 at concrete oracles: a query matching nodes n1
and n2 by vector similarity and one tag matching n2 and n3; the output is
the batch fetch of the deduplicated id set, and its node ids are free of
duplicates although n2 came from both steps. -/
theorem hybrid_retriever_dedup_witness :
    hybridRun cVqTwo cSbt cGbi "energy" ["Biology"] =
      cGbi (retrievedIds cVqTwo cSbt "energy" ["Biology"]) ∧
    ((hybridRun cVqTwo cSbt cGbi "energy" ["Biology"]).map NodeRec.node_id).Nodup :=
  ⟨(hybrid_retriever_dedup cVqTwo cSbt cGbi "energy" ["Biology"]).2.2.2.1 (by decide),
   (hybrid_retriever_dedup cVqTwo cSbt cGbi "energy" ["Biology"]).2.2.2.2
     (fun l h => by
       have hmap : ∀ m : List String, (cGbi m).map NodeRec.node_id = m := by
         intro m
         induction m with
         | nil => rfl
         | cons a rest ih => simp only [cGbi, List.map_cons] at ih ⊢; rw [ih]
       rwa [hmap l])⟩

/-- Claim C4: when the model call or the response decoding fails,
Extractor.run writes exactly one audit entry, with status error and
carrying the prompt it sent, and re-raises the exception, so no
structured result is produced. -/
theorem extractor_fail_hard (promptOf : String → TagVal → String)
    (gen : String → Except String String) (loads : String → Except String ExtractOut)
    (user_text : String) (tags_config : TagVal) (e : String)
    (h : gen (promptOf user_text tags_config) = .error e ∨
      ∃ resp, gen (promptOf user_text tags_config) = .ok resp ∧
        loads (cleanResponse resp) = .error e) :
    extractorRun promptOf gen loads user_text tags_config =
      ⟨.error e, [logApiCall "Extractor" (promptOf user_text tags_config) e "error"],
       [promptOf user_text tags_config]⟩ := by
  rcases h with h | ⟨resp, h₁, h₂⟩
  · simp [extractorRun, h]
  · simp [extractorRun, h₁, h₂]

/-- Witness for claim C4 at a concrete failing model oracle. -/
theorem extractor_fail_hard_witness :
    extractorRun cEPromptOf cGenFail cELoads "text" sampleHier =
      ⟨.error "ServiceUnavailable",
       [logApiCall "Extractor" (cEPromptOf "text" sampleHier) "ServiceUnavailable" "error"],
       [cEPromptOf "text" sampleHier]⟩ :=
  extractor_fail_hard cEPromptOf cGenFail cELoads "text" sampleHier "ServiceUnavailable"
    (Or.inl rfl)

/-- Claim C5 as amended: a model-call failure is logged with status error
and re-raised by the Extractor, the QueryAnalyzer and the Synthesizer,
but inside KnowledgeLinker.run (once candidates exist, so the model is
reached) a model-invocation failure is logged and converted into the
empty-list result instead of propagating, because the single handler of
the linker catches the model call too. -/
theorem model_failure_policy
    (ePromptOf : String → TagVal → String) (genE : String → Except String String)
    (loadsE : String → Except String ExtractOut) (user_text : String) (tags_config : TagVal)
    (qaPromptOf : String → String) (genQ : String → Except String String)
    (loadsQ : String → Except String QueryOut) (user_question : String)
    (sPromptOf : String → List CtxItem → String) (genS : String → Except String String)
    (question : String) (context_nodes : List NodeRec)
    (lPromptOf : String → String → List VecMeta → String) (genL : String → Except String String)
    (loadsL : String → Except String (List RelSpec)) (vq : String → Nat → List VecMeta)
    (nid nsum : String) (e : String) :
    (genE (ePromptOf user_text tags_config) = .error e →
      extractorRun ePromptOf genE loadsE user_text tags_config =
        ⟨.error e, [logApiCall "Extractor" (ePromptOf user_text tags_config) e "error"],
         [ePromptOf user_text tags_config]⟩) ∧
    (genQ (qaPromptOf user_question) = .error e →
      queryAnalyzerRun qaPromptOf genQ loadsQ user_question =
        ⟨.error e, [logApiCall "QueryAnalyzer" (qaPromptOf user_question) e "error"],
         [qaPromptOf user_question]⟩) ∧
    (genS (sPromptOf question (buildContext context_nodes)) = .error e →
      synthesizerRun sPromptOf genS question context_nodes =
        ⟨.error e,
         [logApiCall "Synthesizer" (sPromptOf question (buildContext context_nodes)) e "error"],
         [sPromptOf question (buildContext context_nodes)]⟩) ∧
    (vq nsum 5 ≠ [] →
      genL (lPromptOf nid nsum (vq nsum 5)) = .error e →
      linkerRun lPromptOf genL loadsL vq nid nsum =
        ⟨.ok [], [logApiCall "KnowledgeLinker" (lPromptOf nid nsum (vq nsum 5)) e "error"],
         [lPromptOf nid nsum (vq nsum 5)]⟩) := by
  refine ⟨?_, ?_, ?_, ?_⟩
  · intro h
    simp [extractorRun, h]
  · intro h
    simp [queryAnalyzerRun, h]
  · intro h
    simp [synthesizerRun, h]
  · intro hc h
    have hne : (vq nsum 5).isEmpty = false := by
      cases hh : vq nsum 5 with
      | nil => exact absurd hh hc
      | cons a l => rfl
    simp [linkerRun, hne, h]

/-- Counterexample to claim C5 as stated: with one candidate present and a
model oracle that always raises, KnowledgeLinker.run returns the normal
empty-list result (the model was invoked and its failure logged with
status error), so the model-invocation failure does not propagate. -/
theorem model_failure_policy_counterexample :
    (linkerRun cLPromptOf cGenFail cLLoadsFail cVqOne "n0" "s0").result = .ok [] ∧
    (linkerRun cLPromptOf cGenFail cLLoadsFail cVqOne "n0" "s0").modelCalls =
      [cLPromptOf "n0" "s0" [⟨"cand1"⟩]] ∧
    (linkerRun cLPromptOf cGenFail cLLoadsFail cVqOne "n0" "s0").logs =
      [logApiCall "KnowledgeLinker" (cLPromptOf "n0" "s0" [⟨"cand1"⟩])
        "ServiceUnavailable" "error"] :=
  ⟨rfl, rfl, rfl⟩

/-- Witness for the amended claim C5 at concrete oracles: the Extractor
re-raises a model failure while the KnowledgeLinker converts one into the
empty list. -/
theorem model_failure_policy_witness :
    extractorRun cEPromptOf cGenFail cELoads "note" sampleHier =
      ⟨.error "ServiceUnavailable",
       [logApiCall "Extractor" (cEPromptOf "note" sampleHier) "ServiceUnavailable" "error"],
       [cEPromptOf "note" sampleHier]⟩ ∧
    linkerRun cLPromptOf cGenFail cLLoadsFail cVqOne "n0b" "s0b" =
      ⟨.ok [],
       [logApiCall "KnowledgeLinker" (cLPromptOf "n0b" "s0b" [⟨"cand1"⟩])
         "ServiceUnavailable" "error"],
       [cLPromptOf "n0b" "s0b" [⟨"cand1"⟩]]⟩ :=
  ⟨(model_failure_policy cEPromptOf cGenFail cELoads "note" sampleHier cQaPromptOf cGenFail
      cQLoadsEmpty "q" cSynthPromptOf cGenFail "q" [] cLPromptOf cGenFail cLLoadsFail cVqOne
      "n0b" "s0b" "ServiceUnavailable").1 rfl,
   (model_failure_policy cEPromptOf cGenFail cELoads "note" sampleHier cQaPromptOf cGenFail
      cQLoadsEmpty "q" cSynthPromptOf cGenFail "q" [] cLPromptOf cGenFail cLLoadsFail cVqOne
      "n0b" "s0b" "ServiceUnavailable").2.2.2 (by decide) rfl⟩

/-- Claim C7: when the model response of the KnowledgeLinker fails to
decode, the failure is logged with status error and the agent returns the
empty list instead of raising. -/
theorem linker_parse_degrade (lPromptOf : String → String → List VecMeta → String)
    (gen : String → Except String String) (loads : String → Except String (List RelSpec))
    (vq : String → Nat → List VecMeta) (nid nsum resp e : String)
    (hc : vq nsum 5 ≠ [])
    (h₁ : gen (lPromptOf nid nsum (vq nsum 5)) = .ok resp)
    (h₂ : loads (cleanResponse resp) = .error e) :
    linkerRun lPromptOf gen loads vq nid nsum =
      ⟨.ok [], [logApiCall "KnowledgeLinker" (lPromptOf nid nsum (vq nsum 5)) e "error"],
       [lPromptOf nid nsum (vq nsum 5)]⟩ := by
  have hne : (vq nsum 5).isEmpty = false := by
    cases hh : vq nsum 5 with
    | nil => exact absurd hh hc
    | cons a l => rfl
  simp [linkerRun, hne, h₁, h₂]

/-- Witness for claim C7 at concrete oracles with a decode failure. -/
theorem linker_parse_degrade_witness :
    linkerRun cLPromptOf cGenOk cLLoadsFail cVqOne "n1w" "s1w" =
      ⟨.ok [],
       [logApiCall "KnowledgeLinker" (cLPromptOf "n1w" "s1w" [⟨"cand1"⟩])
         "JSONDecodeError" "error"],
       [cLPromptOf "n1w" "s1w" [⟨"cand1"⟩]]⟩ :=
  linker_parse_degrade cLPromptOf cGenOk cLLoadsFail cVqOne "n1w" "s1w" "resp" "JSONDecodeError"
    (by decide) rfl rfl

/-- Claim C8: when the candidate search returns nothing, KnowledgeLinker
returns the empty list, sends no prompt to the model, and writes no audit
entry. -/
theorem linker_no_candidates (lPromptOf : String → String → List VecMeta → String)
    (gen : String → Except String String) (loads : String → Except String (List RelSpec))
    (vq : String → Nat → List VecMeta) (nid nsum : String)
    (h : vq nsum 5 = []) :
    linkerRun lPromptOf gen loads vq nid nsum = ⟨.ok [], [], []⟩ := by
  simp [linkerRun, h]

/-- Witness for claim C8: with an empty candidate search, even a model
oracle that would raise is never consulted and the result is the empty
list with no logs and no model calls. -/
theorem linker_no_candidates_witness :
    linkerRun cLPromptOf cGenFail cLLoadsFail cVqNone "n2w" "s2w" = ⟨.ok [], [], []⟩ :=
  linker_no_candidates cLPromptOf cGenFail cLLoadsFail cVqNone "n2w" "s2w" rfl

theorem writeRels_no_delete (cr : RelSpec → Except String Unit) (nid : String) :
    ∀ (rels : List RelSpec) (i : String), StoreOp.deleteNode i ∉ (writeRels cr nid rels).1 := by
  intro rels
  induction rels with
  | nil => intro i; simp [writeRels]
  | cons r rest ih =>
    intro i
    cases hcr : cr r with
    | error e => simp [writeRels, hcr]
    | ok u => simp [writeRels, hcr, ih i]

/-- Claim C6: GraphWriter.run never re-raises (every oracle outcome yields
a normal return); when the node creation succeeded and the embedding step
raises, the performed node creation stays (the only store call in the
trace is the node creation, never a delete) and one manual-action audit
entry recording the failure is written; likewise when a later
relationship step raises, the node creation and embedding stay; and no
run ever issues a node deletion, so nothing is rolled back. -/
theorem writer_partial_failure_isolated
    (create_knowledge_node add_embedding : Except String Unit)
    (create_relationship : RelSpec → Except String Unit)
    (node_id : String) (eo : ExtractOut) (lo : List RelSpec) (raw_text : String) :
    (∃ r, graphWriterRun create_knowledge_node add_embedding create_relationship
        node_id eo lo raw_text = .ok r) ∧
    (∀ e, create_knowledge_node = .ok () → add_embedding = .error e →
      graphWriterRun create_knowledge_node add_embedding create_relationship
          node_id eo lo raw_text =
        .ok ([StoreOp.createNode node_id raw_text eo.content_summary eo.node_type eo.tag_path],
             [logManualAction "write_failure" (writeFailMsg node_id e)])) ∧
    (∀ e, create_knowledge_node = .ok () → add_embedding = .ok () →
      (writeRels create_relationship node_id lo).2 = some e →
      graphWriterRun create_knowledge_node add_embedding create_relationship
          node_id eo lo raw_text =
        .ok (StoreOp.createNode node_id raw_text eo.content_summary eo.node_type eo.tag_path ::
              StoreOp.addEmbedding node_id eo.content_summary ::
              (writeRels create_relationship node_id lo).1,
             [logManualAction "write_failure" (writeFailMsg node_id e)])) ∧
    (∀ ops logs, graphWriterRun create_knowledge_node add_embedding create_relationship
        node_id eo lo raw_text = .ok (ops, logs) →
      ∀ i, StoreOp.deleteNode i ∉ ops) := by
  refine ⟨?_, ?_, ?_, ?_⟩
  · cases hcn : create_knowledge_node with
    | error e =>
      refine ⟨([], [logManualAction "write_failure" (writeFailMsg node_id e)]), ?_⟩
      simp [graphWriterRun, hcn]
    | ok u =>
      cases hae : add_embedding with
      | error e =>
        refine ⟨([StoreOp.createNode node_id raw_text eo.content_summary eo.node_type
          eo.tag_path], [logManualAction "write_failure" (writeFailMsg node_id e)]), ?_⟩
        simp [graphWriterRun, hcn, hae]
      | ok u₂ =>
        cases hrel : (writeRels create_relationship node_id lo).2 with
        | none =>
          refine ⟨(StoreOp.createNode node_id raw_text eo.content_summary eo.node_type
            eo.tag_path :: StoreOp.addEmbedding node_id eo.content_summary ::
            (writeRels create_relationship node_id lo).1, []), ?_⟩
          simp [graphWriterRun, hcn, hae, hrel]
        | some e =>
          refine ⟨(StoreOp.createNode node_id raw_text eo.content_summary eo.node_type
            eo.tag_path :: StoreOp.addEmbedding node_id eo.content_summary ::
            (writeRels create_relationship node_id lo).1,
            [logManualAction "write_failure" (writeFailMsg node_id e)]), ?_⟩
          simp [graphWriterRun, hcn, hae, hrel]
  · intro e hcn hae
    simp [graphWriterRun, hcn, hae]
  · intro e hcn hae hrel
    simp [graphWriterRun, hcn, hae, hrel]
  · intro ops logs h i
    cases hcn : create_knowledge_node with
    | error e =>
      rw [hcn] at h
      simp [graphWriterRun] at h
      obtain ⟨h₁, h₂⟩ := h
      subst h₁
      simp
    | ok u =>
      cases hae : add_embedding with
      | error e =>
        rw [hcn, hae] at h
        simp [graphWriterRun] at h
        obtain ⟨h₁, h₂⟩ := h
        subst h₁
        simp
      | ok u₂ =>
        cases hrel : (writeRels create_relationship node_id lo).2 with
        | none =>
          rw [hcn, hae] at h
          simp [graphWriterRun, hrel] at h
          obtain ⟨h₁, h₂⟩ := h
          subst h₁
          simp [writeRels_no_delete create_relationship node_id lo i]
        | some e =>
          rw [hcn, hae] at h
          simp [graphWriterRun, hrel] at h
          obtain ⟨h₁, h₂⟩ := h
          subst h₁
          simp [writeRels_no_delete create_relationship node_id lo i]

/-- Witness for claim C6 at concrete store oracles: node creation succeeds
and the embedding store raises; the run returns normally with the node
creation kept and one manual-action entry. -/
theorem writer_partial_failure_isolated_witness :
    graphWriterRun (.ok ()) (.error "EmbeddingStoreDown") (fun _ => .ok ())
        "node9" ⟨"sum9", "Concept", ["Biology"]⟩ [] "raw9" =
      .ok ([StoreOp.createNode "node9" "raw9" "sum9" "Concept" ["Biology"]],
           [logManualAction "write_failure" (writeFailMsg "node9" "EmbeddingStoreDown")]) :=
  (writer_partial_failure_isolated (.ok ()) (.error "EmbeddingStoreDown") (fun _ => .ok ())
    "node9" ⟨"sum9", "Concept", ["Biology"]⟩ [] "raw9").2.1 "EmbeddingStoreDown" rfl rfl

/-- Claim C10: every audit entry written through the manual-action logging
path carries status success (the status column is hard-coded), including
the entries GraphWriter writes to record a persistence failure, so a
store-write failure never produces an error-status entry in the audit
log. -/
theorem manual_action_always_success :
    (∀ a d, (logManualAction a d).status = "success") ∧
    (∀ (create_knowledge_node add_embedding : Except String Unit)
      (create_relationship : RelSpec → Except String Unit)
      (node_id : String) (eo : ExtractOut) (lo : List RelSpec) (raw_text : String)
      (ops : List StoreOp) (logs : List LogEntry),
      graphWriterRun create_knowledge_node add_embedding create_relationship
          node_id eo lo raw_text = .ok (ops, logs) →
      ∀ en ∈ logs, en.status = "success" ∧ ¬ en.status = "error") := by
  refine ⟨fun a d => rfl, ?_⟩
  intro cn ae cr nid eo lo raw ops logs h en hen
  have hsucc : en.status = "success" := by
    cases hcn : cn with
    | error e =>
      rw [hcn] at h
      simp [graphWriterRun] at h
      obtain ⟨h₁, h₂⟩ := h
      subst h₂
      simp at hen
      rw [hen]
      rfl
    | ok u =>
      cases hae : ae with
      | error e =>
        rw [hcn, hae] at h
        simp [graphWriterRun] at h
        obtain ⟨h₁, h₂⟩ := h
        subst h₂
        simp at hen
        rw [hen]
        rfl
      | ok u₂ =>
        cases hrel : (writeRels cr nid lo).2 with
        | none =>
          rw [hcn, hae] at h
          simp [graphWriterRun, hrel] at h
          obtain ⟨h₁, h₂⟩ := h
          subst h₂
          simp at hen
        | some e =>
          rw [hcn, hae] at h
          simp [graphWriterRun, hrel] at h
          obtain ⟨h₁, h₂⟩ := h
          subst h₂
          simp at hen
          rw [hen]
          rfl
  refine ⟨hsucc, ?_⟩
  rw [hsucc]
  decide

/-- Witness for claim C10: the manual entry written for a concrete failing
embedding store has status success and not error. -/
theorem manual_action_always_success_witness :
    (logManualAction "write_failure" "details").status = "success" ∧
    ((logManualAction "write_failure" (writeFailMsg "node10" "Down")).status = "success" ∧
      ¬ (logManualAction "write_failure" (writeFailMsg "node10" "Down")).status = "error") :=
  ⟨manual_action_always_success.1 "write_failure" "details",
   manual_action_always_success.2 (.ok ()) (.error "Down") (fun _ => .ok ()) "node10"
     ⟨"s", "Concept", ["Biology"]⟩ [] "r"
     [StoreOp.createNode "node10" "r" "s" "Concept" ["Biology"]]
     [logManualAction "write_failure" (writeFailMsg "node10" "Down")]
     rfl
     (logManualAction "write_failure" (writeFailMsg "node10" "Down"))
     (List.mem_singleton.mpr rfl)⟩

/-- Claim C9: in the query page, whenever the analyzer succeeds and the
retrieval step yields zero nodes, the Synthesizer is never invoked (no
prompt reaches it), the response is the fixed no-information message, and
the turn is a success, not an error. -/
theorem query_page_empty_retrieval
    (qaPromptOf : String → String) (genQA : String → Except String String)
    (loadsQA : String → Except String QueryOut)
    (query_embeddings : String → Nat → List VecMeta)
    (search_nodes_by_tag : String → List NodeRec)
    (get_nodes_by_ids : List String → List NodeRec)
    (synthPromptOf : String → List CtxItem → String) (genS : String → Except String String)
    (prompt : String) (q : QueryOut)
    (h₁ : (queryAnalyzerRun qaPromptOf genQA loadsQA prompt).result = .ok q)
    (h₂ : hybridRun query_embeddings search_nodes_by_tag get_nodes_by_ids
        q.semantic_query q.graph_tags = []) :
    queryGraphPage qaPromptOf genQA loadsQA query_embeddings search_nodes_by_tag
        get_nodes_by_ids synthPromptOf genS prompt =
      ⟨noInfoMessage, false, (queryAnalyzerRun qaPromptOf genQA loadsQA prompt).logs, []⟩ := by
  simp [queryGraphPage, h₁, h₂]

/-- Witness for claim C9 at concrete oracles: the analyzer yields an empty
semantic query and no tags, the retriever finds nothing, and the page
returns the fixed message without consulting the synthesizer model oracle,
which here would raise if it were ever called. -/
theorem query_page_empty_retrieval_witness :
    queryGraphPage cQaPromptOf cGenOk cQLoadsEmpty cVqNone cSbt cGbi cSynthPromptOf
        cGenFail "hi" =
      ⟨noInfoMessage, false, (queryAnalyzerRun cQaPromptOf cGenOk cQLoadsEmpty "hi").logs, []⟩ :=
  query_page_empty_retrieval cQaPromptOf cGenOk cQLoadsEmpty cVqNone cSbt cGbi cSynthPromptOf
    cGenFail "hi" ⟨"", []⟩ rfl rfl
